import Mathlib

/-
Verification of the `httperror` Go library (github.com/johnwarden/httperror).

The library represents HTTP request failures as ordinary Go error values:
  * `statusError`      -- a bare HTTP status code (statuserror revision, src/unnamed/part_006);
                          the `httpError` struct of other revisions is the same value shape.
  * `wrappedError`     -- an arbitrary cause error together with an embedded statusError
                          (src/unnamed/part_000, `Wrap`).
  * `publicError`      -- a user-safe message together with an embedded statusError
                          (src/publicerror.go, src/unnamed/part_010).
  * `panicError`       -- a recovered panic: either an inner error cause, or the
                          stringified panic value (src/unnamed/part_011, final revision).
  * plain errors       -- `errors.New` / `fmt.Errorf` values (`errorString` below), and
                          external errors exposing a `Temporary() bool` method
                          (`temporaryError` below), which `StatusCode` in src/error.go
                          inspects.

We embed the error values as the inductive type `GoErr`, the wrap-chain walks of
`errors.As` / `errors.Is` as structural recursions that mirror the Go standard
library loop (equality check, then the value's own `Is` method, then `Unwrap`),
and the response renderer of src/response.go as pure functions from the declared
content type, status and message to the written body.
-/

namespace Httperror

/-- Go error values relevant to this package, one constructor per Go dynamic type.
`statusError` carries the `status int` field; `wrappedError` and `publicError`
embed a `statusError` (represented by carrying its status directly);
the private `panicError` type carries `innerError error` and `message string`,
but is only ever constructed as `panicError{E, ""}` (constructor
`panicErrorCause`) or `panicError{nil, m}` (constructor `panicErrorMsg`), so
those two shapes are its two constructors here; `errorString` stands for
`errors.New`/`fmt.Errorf` values; `temporaryError` stands for an external error
implementing `Temporary() bool`. -/
inductive GoErr where
  | statusError (status : Int)
  | wrappedError (inner : GoErr) (status : Int)
  | publicError (message : String) (status : Int)
  | panicErrorCause (innerError : GoErr)
  | panicErrorMsg (message : String)
  | errorString (msg : String)
  | temporaryError (msg : String) (temp : Bool)
  deriving DecidableEq, Repr

/-- net/http `StatusText`: the canonical text for each registered status code,
`""` for unregistered codes. -/
def statusText : Int → String
  | 100 => "Continue"
  | 101 => "Switching Protocols"
  | 102 => "Processing"
  | 103 => "Early Hints"
  | 200 => "OK"
  | 201 => "Created"
  | 202 => "Accepted"
  | 203 => "Non-Authoritative Information"
  | 204 => "No Content"
  | 205 => "Reset Content"
  | 206 => "Partial Content"
  | 207 => "Multi-Status"
  | 208 => "Already Reported"
  | 226 => "IM Used"
  | 300 => "Multiple Choices"
  | 301 => "Moved Permanently"
  | 302 => "Found"
  | 303 => "See Other"
  | 304 => "Not Modified"
  | 305 => "Use Proxy"
  | 307 => "Temporary Redirect"
  | 308 => "Permanent Redirect"
  | 400 => "Bad Request"
  | 401 => "Unauthorized"
  | 402 => "Payment Required"
  | 403 => "Forbidden"
  | 404 => "Not Found"
  | 405 => "Method Not Allowed"
  | 406 => "Not Acceptable"
  | 407 => "Proxy Authentication Required"
  | 408 => "Request Timeout"
  | 409 => "Conflict"
  | 410 => "Gone"
  | 411 => "Length Required"
  | 412 => "Precondition Failed"
  | 413 => "Request Entity Too Large"
  | 414 => "Request URI Too Long"
  | 415 => "Unsupported Media Type"
  | 416 => "Requested Range Not Satisfiable"
  | 417 => "Expectation Failed"
  | 418 => "I\x27m a teapot"
  | 421 => "Misdirected Request"
  | 422 => "Unprocessable Entity"
  | 423 => "Locked"
  | 424 => "Failed Dependency"
  | 425 => "Too Early"
  | 426 => "Upgrade Required"
  | 428 => "Precondition Required"
  | 429 => "Too Many Requests"
  | 431 => "Request Header Fields Too Large"
  | 451 => "Unavailable For Legal Reasons"
  | 500 => "Internal Server Error"
  | 501 => "Not Implemented"
  | 502 => "Bad Gateway"
  | 503 => "Service Unavailable"
  | 504 => "Gateway Timeout"
  | 505 => "HTTP Version Not Supported"
  | 506 => "Variant Also Negotiates"
  | 507 => "Insufficient Storage"
  | 508 => "Loop Detected"
  | 510 => "Not Extended"
  | 511 => "Network Authentication Required"
  | _ => ""

/-- strconv.Itoa as used on status codes. -/
def itoa (s : Int) : String := toString s

/-- The `Error()` method of each error type: `statusError.Error` and
`wrappedError.Error` (src/unnamed/part_000), `publicError.Error`
(src/publicerror.go), `panicError.Error` (src/unnamed/part_011), and the text of
plain errors. -/
def errorText : GoErr → String
  | .statusError s => itoa s ++ " " ++ statusText s
  | .wrappedError inner s => itoa s ++ " " ++ statusText s ++ ": " ++ errorText inner
  | .publicError m s =>
      itoa s ++ " " ++ statusText s ++ (if m = "" then "" else ": " ++ m)
  | .panicErrorCause inner => "panic: " ++ errorText inner
  | .panicErrorMsg m => "panic: " ++ m
  | .errorString m => m
  | .temporaryError m _ => m

/-- `errors.As(err, &httpError)` where `httpError` is the private
`interface{ httpStatusCode() int }` of src/error.go: walk the chain from the top;
`statusError`, `wrappedError` and `publicError` implement the interface (the
latter two by struct embedding); `panicError` does not and is unwrapped to its
inner error; plain errors neither implement it nor unwrap. Returns the status of
the first implementing node. -/
def errorsAsHttpError : GoErr → Option Int
  | .statusError s => some s
  | .wrappedError _ s => some s
  | .publicError _ s => some s
  | .panicErrorCause inner => errorsAsHttpError inner
  | .panicErrorMsg _ => none
  | .errorString _ => none
  | .temporaryError _ _ => none

/-- `errors.As(err, &publicError)` for the `Public` interface
(`PublicMessage() string`, src/error.go): only `publicError` implements it;
`wrappedError` and `panicError` are unwrapped. -/
def errorsAsPublic : GoErr → Option String
  | .publicError m _ => some m
  | .wrappedError inner _ => errorsAsPublic inner
  | .panicErrorCause inner => errorsAsPublic inner
  | _ => none

/-- `errors.As(err, &temporaryErr)` for `interface{ Temporary() bool }`
(src/error.go): only `temporaryError` implements it; `wrappedError` and
`panicError` are unwrapped. Returns the `Temporary()` result of the first
implementing node. -/
def errorsAsTemporary : GoErr → Option Bool
  | .temporaryError _ t => some t
  | .wrappedError inner _ => errorsAsTemporary inner
  | .panicErrorCause inner => errorsAsTemporary inner
  | _ => none

/-- `httperror.StatusCode` from src/error.go: 200 for nil; the status of the
first node in the `errors.As` chain offering the status-code capability;
otherwise 503 if the first node offering `Temporary() bool` returns true;
otherwise 500. -/
def StatusCode : Option GoErr → Int
  | none => 200
  | some e =>
    match errorsAsHttpError e with
    | some s => s
    | none =>
      match errorsAsTemporary e with
      | some true => 503
      | _ => 500

/-- `httperror.PublicMessage` from src/error.go: `""` for nil; the message of the
first node in the `errors.As` chain offering the public-message capability;
otherwise `""`. -/
def PublicMessage : Option GoErr → String
  | none => ""
  | some e =>
    match errorsAsPublic e with
    | some m => m
    | none => ""

/-- The `Panic` sentinel of src/unnamed/part_011: the zero-value `panicError{}`,
i.e. nil inner error and empty message. -/
def Panic : GoErr := .panicErrorMsg ""

/-- `statusError.Is(target)` from src/unnamed/part_006 (receiver status `s`):
true iff the target is itself a `statusError` with the same status code.
`wrappedError` and `publicError` obtain this method by embedding. -/
def statusErrorIs (s : Int) : GoErr → Bool
  | .statusError t => decide (s = t)
  | _ => false

/-- `errors.Is(err, target)` of the Go standard library specialised to this
package: at each node, test `err == target` (Go interface equality), then the
node's own `Is` method (`statusError.Is`, possibly promoted by embedding, or
`panicError.Is` which accepts the `Panic` sentinel and recurses into the inner
cause), then follow `Unwrap` (`wrappedError.Unwrap` and `panicError.Unwrap`;
`publicError` and plain errors have no `Unwrap`). -/
def errorsIs : GoErr → GoErr → Bool
  | .statusError s, target =>
      decide (GoErr.statusError s = target) || statusErrorIs s target
  | .wrappedError inner s, target =>
      decide (GoErr.wrappedError inner s = target) || statusErrorIs s target
        || errorsIs inner target
  | .publicError m s, target =>
      decide (GoErr.publicError m s = target) || statusErrorIs s target
  | .panicErrorCause inner, target =>
      decide (GoErr.panicErrorCause inner = target)
        || (decide (target = Panic) || errorsIs inner target)
        || errorsIs inner target
  | .panicErrorMsg m, target =>
      decide (GoErr.panicErrorMsg m = target) || decide (target = Panic)
  | .errorString m, target => decide (GoErr.errorString m = target)
  | .temporaryError m t, target => decide (GoErr.temporaryError m t = target)

/-- `httperror.Wrap` from src/unnamed/part_000: always produces a
`wrappedError` embedding the status. -/
def Wrap (err : GoErr) (status : Int) : GoErr := .wrappedError err status

/-- `httperror.New` from src/unnamed/part_000: a bare status value when the
message is empty, otherwise `Wrap` of a fresh generic error. -/
def New (s : Int) (m : String) : GoErr :=
  if m = "" then .statusError s else Wrap (.errorString m) s

/-- `httperror.NewPublic` from src/unnamed/part_010: a `publicError` embedding
the status. -/
def NewPublic (status : Int) (message : String) : GoErr :=
  .publicError message status

/-- `httperror.BadRequest` predefined constant (src/unnamed/part_006). -/
def BadRequest : GoErr := .statusError 400

/-- A value recovered by the panic middleware: Go `recover()` yields either an
error value or some other value, which `fmt.Sprintf("%v", r)` stringifies; we
carry the stringified form. -/
inductive PanicValue where
  | err (e : GoErr)
  | str (s : String)
  deriving DecidableEq, Repr

/-- The panic-to-error conversion of `PanicMiddleware` in src/unnamed/part_011:
a recovered error `E` becomes `panicError{E, ""}`; any other recovered value
becomes `panicError{nil, fmt.Sprintf("%v", r)}`. -/
def recoverToError : PanicValue → GoErr
  | .err e => .panicErrorCause e
  | .str s => .panicErrorMsg s

/-- Lower-case hex digit, as used by encoding/json for control-character
escapes. -/
def hexDigit (n : Nat) : String :=
  if n < 10 then toString n
  else if n = 10 then "a"
  else if n = 11 then "b"
  else if n = 12 then "c"
  else if n = 13 then "d"
  else if n = 14 then "e"
  else "f"

/-- encoding/json string-element encoding with the default HTML escaping
(`encodeState.string` of the Go standard library): quote and backslash are
backslash-escaped; `<`, `>`, `&` become `<`, `>`, `&`; newline,
carriage return and tab become `\n`, `\r`, `\t`; other control characters below
U+0020 become `\u00XX`; U+2028 and U+2029 are escaped; everything else is
copied verbatim. -/
def jsonEscapeChar (c : Char) : String :=
  if c.toNat = 34 then "\\\""
  else if c.toNat = 92 then "\\\\"
  else if c.toNat = 60 then "\\u003c"
  else if c.toNat = 62 then "\\u003e"
  else if c.toNat = 38 then "\\u0026"
  else if c.toNat = 10 then "\\n"
  else if c.toNat = 13 then "\\r"
  else if c.toNat = 9 then "\\t"
  else if c.toNat < 32 then "\\u00" ++ hexDigit (c.toNat / 16) ++ hexDigit (c.toNat % 16)
  else if c.toNat = 8232 then "\\u2028"
  else if c.toNat = 8233 then "\\u2029"
  else String.singleton c

/-- A JSON string literal for `s`, in Go encoding/json form. -/
def jsonQuote (s : String) : String :=
  "\"" ++ String.join (s.data.map jsonEscapeChar) ++ "\""

/-- `json.Marshal` of the `jsonhttperror` struct of src/response.go:
`Status string json:"status"`, `Message string json:"message,omitempty"`,
`Code int json:"code,omitempty"`. The `omitempty` fields are dropped entirely
when they hold the zero value (empty string, zero int). -/
def marshalJsonHttpError (status message : String) (code : Int) : String :=
  "\x7b\"status\":" ++ jsonQuote status
    ++ (if message = "" then "" else ",\"message\":" ++ jsonQuote message)
    ++ (if code = 0 then "" else ",\"code\":" ++ itoa code)
    ++ "\x7d"

/-- `writeJsonErrorBody` of src/response.go: the marshalled envelope with
`Status: "error"`, `Message: string(m)`, `Code: s`, followed by a newline. -/
def writeJsonErrorBody (s : Int) (m : String) : String :=
  marshalJsonHttpError "error" m s ++ "\n"

/-- `writePlainTextErrorBody` of src/response.go. -/
def writePlainTextErrorBody (s : Int) (m : String) : String :=
  itoa s ++ " " ++ m ++ "\n"

/-- `writeHtmlErrorBody` of src/response.go. -/
def writeHtmlErrorBody (s : Int) (m : String) : String :=
  "<html><head><meta http-equiv=\"Content-Type\" content=\"text/html; charset=UTF-8\"><title>"
    ++ "Error " ++ itoa s ++ "</title></head><body>" ++ m ++ "</body></html>\n"

/-- `strings.Cut(v, ";")`: the characters before the first semicolon. -/
def cutSemicolon : List Char → List Char
  | [] => []
  | c :: t => if c.toNat = 59 then [] else c :: cutSemicolon t

/-- The ASCII whitespace characters `strings.TrimSpace` removes (space, tab,
newline, vertical tab, form feed, carriage return; media types are ASCII so the
further Unicode space classes never arise here). -/
def isSpaceChar (c : Char) : Bool :=
  c.toNat = 32 || c.toNat = 9 || c.toNat = 10 || c.toNat = 11 || c.toNat = 12 || c.toNat = 13

/-- `strings.TrimSpace` on a character list. -/
def trimSpace (l : List Char) : List Char :=
  ((l.dropWhile isSpaceChar).reverse.dropWhile isSpaceChar).reverse

/-- The media-type portion computed by `mime.ParseMediaType` as used in
`responseContentType` of src/response.go: the part before the first `;`,
whitespace-trimmed and lower-cased. (Go additionally reports an error for a
malformed media type, in which case `responseContentType` yields `""`; a
malformed base can never equal one of the well-formed media types the renderer
dispatches on, so the dispatch below is unaffected.) -/
def parseMediaType (v : String) : String :=
  String.mk ((trimSpace (cutSemicolon v.data)).map Char.toLower)

/-- The `Content-Type` response-header state `responseContentType` reads:
`none` when the header was never set, `some v` when it was set to `v`. -/
def responseContentType : Option String → String
  | none => ""
  | some v => parseMediaType v

/-- `WriteResponse` of src/response.go: dispatch on the already-declared
response content type — `application/json` renders the JSON envelope,
`text/plain` and `text` render plain text, anything else (including no declared
type) renders the HTML document. Returns the body written. -/
def WriteResponse (contentType : Option String) (s : Int) (m : String) : String :=
  let ct := responseContentType contentType
  if ct = "application/json" then writeJsonErrorBody s m
  else if ct = "text/plain" then writePlainTextErrorBody s m
  else if ct = "text" then writePlainTextErrorBody s m
  else writeHtmlErrorBody s m

/-- The observable response state produced by an error handler: the status code
passed to `WriteHeader` and the body bytes written. -/
structure Resp where
  status : Int
  body : String
  deriving DecidableEq, Repr

/-- `DefaultErrorHandler` of src/response.go: writes `StatusCode(e)` as the
response status, builds the message as `http.StatusText(s)` followed by
`": <public message>"` exactly when `PublicMessage(e)` is non-empty, and hands
both to `WriteResponse` together with the declared content type. -/
def DefaultErrorHandler (contentType : Option String) (e : Option GoErr) : Resp :=
  let s := StatusCode e
  let pm := PublicMessage e
  let m := statusText s ++ (if pm = "" then "" else ": " ++ pm)
  ⟨s, WriteResponse contentType s m⟩

/-- Substring test used to state "the body contains ...". -/
def listContains (needle hay : List Char) : Bool :=
  match hay with
  | [] => needle.isEmpty
  | _ :: t => needle.isPrefixOf hay || listContains needle t

/-- `strContains hay needle` is true iff `needle` occurs contiguously in `hay`. -/
def strContains (hay needle : String) : Bool :=
  listContains needle.data hay.data

set_option maxRecDepth 8000

/-- Reflexivity of the embedded `errors.Is`: the first iteration of the Go loop
compares `err == target`, which succeeds when both are the same value. -/
theorem errorsIs_self (e : GoErr) : errorsIs e e = true := by
  cases e <;> simp [errorsIs]

/-- C1: for every valid HTTP status code `s` and every error `e`, extracting the
status code from `Wrap(e, s)` yields `s`: the wrapper is the first node of the
`errors.As` chain and carries the embedded status. -/
theorem C1_statusCode_of_wrap (s : Int) (e : GoErr) (_hlo : 100 ≤ s) (_hhi : s ≤ 599) :
    StatusCode (some (Wrap e s)) = s := rfl

theorem C1_statusCode_of_wrap_witness :
    (100 : Int) ≤ 404 ∧ (404 : Int) ≤ 599 ∧
      StatusCode (some (Wrap (.errorString "disk failure") 404)) = 404 :=
  ⟨by decide, by decide,
    C1_statusCode_of_wrap 404 (.errorString "disk failure") (by decide) (by decide)⟩

/-- C2 counterexample: an error that offers no status-code capability anywhere in
its chain but implements `Temporary() bool` returning true is mapped to 503, not
500, so the claim "every non-nil error with no status-code capability yields 500"
is false as stated. -/
theorem C2_temporary_counterexample :
    errorsAsHttpError (.temporaryError "connection reset" true) = none ∧
    StatusCode (some (.temporaryError "connection reset" true)) = 503 ∧
    StatusCode (some (.temporaryError "connection reset" true)) ≠ 500 :=
  ⟨rfl, rfl, by decide⟩

/-- C2 amended: `StatusCode(nil)` is 200, and every non-nil error that offers
no status-code capability anywhere in its wrap chain, and whose chain does not
offer a `Temporary() bool` capability returning true, is mapped to 500. (The
function is total, hence never fails.) -/
theorem C2_statusCode_defaults :
    StatusCode none = 200 ∧
    ∀ e : GoErr, errorsAsHttpError e = none → errorsAsTemporary e ≠ some true →
      StatusCode (some e) = 500 := by
  refine ⟨rfl, ?_⟩
  intro e h1 h2
  cases ht : errorsAsTemporary e with
  | none => simp [StatusCode, h1, ht]
  | some b =>
    cases b with
    | true => exact absurd ht h2
    | false => simp [StatusCode, h1, ht]

theorem C2_statusCode_defaults_witness :
    StatusCode none = 200 ∧ StatusCode (some (.errorString "oops")) = 500 :=
  ⟨C2_statusCode_defaults.1, C2_statusCode_defaults.2 (.errorString "oops") rfl (by decide)⟩

/-- C3: structural equivalence is not symmetric. For every cause,
`errors.Is(Wrap(cause, 400), BadRequest)` is true (the wrapper's promoted
`statusError.Is` matches the bare status target), while
`errors.Is(BadRequest, Wrap(cause, 400))` is false (the bare status error's `Is`
only accepts `statusError` targets, and it has no `Unwrap`). -/
theorem C3_is_asymmetric (cause : GoErr) :
    errorsIs (Wrap cause 400) BadRequest = true ∧
    errorsIs BadRequest (Wrap cause 400) = false := by
  constructor
  · simp [errorsIs, Wrap, BadRequest, statusErrorIs]
  · simp [errorsIs, Wrap, BadRequest, statusErrorIs]

/-- C4: every recovered panic converts to an error matching the `Panic` sentinel
under `errors.Is`; a panic with the string "boom" yields error text
"panic: boom"; a panic with a pre-existing error `E` matches both the `Panic`
sentinel and `E` itself via wrap-chain traversal. -/
theorem C4_panic_conversion :
    (∀ v : PanicValue, errorsIs (recoverToError v) Panic = true) ∧
    errorText (recoverToError (.str "boom")) = "panic: boom" ∧
    (∀ E : GoErr, errorsIs (recoverToError (.err E)) Panic = true ∧
      errorsIs (recoverToError (.err E)) E = true) := by
  refine ⟨?_, rfl, ?_⟩
  · intro v
    cases v <;> simp [recoverToError, errorsIs, Panic]
  · intro E
    constructor
    · simp [recoverToError, errorsIs, Panic]
    · simp [recoverToError, errorsIs, errorsIs_self]

/-- C5 counterexample: when the wrapped cause itself carries a public message,
`PublicMessage(Wrap(cause, 400))` reveals it, so "for every cause error,
PublicMessage(Wrap(cause, 400)) is empty" is false as stated. -/
theorem C5_public_cause_counterexample :
    PublicMessage (some (Wrap (NewPublic 400 "m") 400)) = "m" ∧
    PublicMessage (some (Wrap (NewPublic 400 "m") 400)) ≠ "" :=
  ⟨rfl, by decide⟩

/-- C5 amended: for every cause whose wrap chain offers no public-message
capability, `PublicMessage(Wrap(cause, 400))` is empty (the cause's diagnostic
text is never revealed); `PublicMessage(NewPublic(400, m))` is `m` for every
`m`; and `PublicMessage(nil)` is empty. -/
theorem C5_publicMessage (cause : GoErr) (m : String)
    (h : errorsAsPublic cause = none) :
    PublicMessage (some (Wrap cause 400)) = "" ∧
    PublicMessage (some (NewPublic 400 m)) = m ∧
    PublicMessage none = "" := by
  refine ⟨?_, rfl, rfl⟩
  simp [PublicMessage, Wrap, errorsAsPublic, h]

theorem C5_publicMessage_witness :
    PublicMessage (some (Wrap (.errorString "pw invalid") 400)) = "" ∧
    PublicMessage (some (NewPublic 400 "m")) = "m" ∧
    PublicMessage none = "" :=
  C5_publicMessage (.errorString "pw invalid") "m" rfl

/-- C6 counterexample: for `NewPublic(400, "missing \x27name\x27 parameter")`
the default handler's HTML body does not contain
"400 Bad Request: missing \x27name\x27 parameter" (the body text has no leading
status code), and the JSON output differs from the claimed envelope (the message
field carries the "Bad Request: " prefix built by the handler). -/
theorem C6_renderer_counterexample :
    strContains
      (DefaultErrorHandler none (some (NewPublic 400 "missing \x27name\x27 parameter"))).body
      "400 Bad Request: missing \x27name\x27 parameter" = false ∧
    (DefaultErrorHandler (some "application/json")
        (some (NewPublic 400 "missing \x27name\x27 parameter"))).body ≠
      "\x7b\"status\":\"error\",\"message\":\"missing \x27name\x27 parameter\",\"code\":400\x7d\n" := by
  constructor
  · rfl
  · decide

/-- C6 amended: the default handler sets the response status to
`StatusCode(err)`; for `NewPublic(400, "missing \x27name\x27 parameter")` with no
content type set, it renders an HTML body containing
"Bad Request: missing \x27name\x27 parameter" (with title "Error 400"), and with
content type application/json it outputs the JSON envelope whose message is
"Bad Request: missing \x27name\x27 parameter", followed by a newline. -/
theorem C6_defaultErrorHandler :
    (∀ (ct : Option String) (e : Option GoErr),
      (DefaultErrorHandler ct e).status = StatusCode e) ∧
    DefaultErrorHandler none (some (NewPublic 400 "missing \x27name\x27 parameter")) =
      ⟨400,
        "<html><head><meta http-equiv=\"Content-Type\" content=\"text/html; charset=UTF-8\"><title>Error 400</title></head><body>Bad Request: missing \x27name\x27 parameter</body></html>\n"⟩ ∧
    strContains
      (DefaultErrorHandler none (some (NewPublic 400 "missing \x27name\x27 parameter"))).body
      "Bad Request: missing \x27name\x27 parameter" = true ∧
    DefaultErrorHandler (some "application/json")
        (some (NewPublic 400 "missing \x27name\x27 parameter")) =
      ⟨400,
        "\x7b\"status\":\"error\",\"message\":\"Bad Request: missing \x27name\x27 parameter\",\"code\":400\x7d\n"⟩ :=
  ⟨fun _ _ => rfl, by decide, by rfl, by decide⟩

/-- The marshalled form of the constant status field. -/
theorem jsonQuote_error : jsonQuote "error" = "\"error\"" := by decide

/-- C7: whenever the declared Content-Type's media-type portion (parameters such
as charset ignored) is application/json, the renderer writes the JSON envelope
followed by a newline, omitting the message field entirely when the message is
empty and the code field entirely when the status is zero. -/
theorem C7_json_envelope (ct : String) (s : Int) (m : String)
    (h : parseMediaType ct = "application/json") :
    WriteResponse (some ct) s m =
      "\x7b\"status\":\"error\""
        ++ (if m = "" then "" else ",\"message\":" ++ jsonQuote m)
        ++ (if s = 0 then "" else ",\"code\":" ++ itoa s)
        ++ "\x7d\n" := by
  rcases eq_or_ne m "" with hm | hm <;> rcases eq_or_ne s 0 with hs | hs <;>
    simp [WriteResponse, responseContentType, h, writeJsonErrorBody,
      marshalJsonHttpError, jsonQuote_error, hm, hs, ← String.append_assoc] <;>
    simp [String.append_assoc]

theorem C7_json_envelope_witness :
    WriteResponse (some "application/json; charset=utf-8") 400 "oops" =
      "\x7b\"status\":\"error\",\"message\":\"oops\",\"code\":400\x7d\n" ∧
    WriteResponse (some "APPLICATION/JSON") 0 "" = "\x7b\"status\":\"error\"\x7d\n" := by
  constructor
  · rw [C7_json_envelope "application/json; charset=utf-8" 400 "oops" (by decide)]; decide
  · rw [C7_json_envelope "APPLICATION/JSON" 0 "" (by decide)]; decide

/-- C8: `New(400, "")` returns the bare status value, strictly equal and
`errors.Is`-equivalent to the predefined `BadRequest` constant, whereas
`New(400, "x")` is not strictly equal to `BadRequest` but is equivalent to it
under the status-only structural comparison. -/
theorem C8_new_roundtrip :
    New 400 "" = BadRequest ∧
    errorsIs (New 400 "") BadRequest = true ∧
    New 400 "x" ≠ BadRequest ∧
    errorsIs (New 400 "x") BadRequest = true :=
  ⟨rfl, by decide, by decide, by decide⟩

/-- C9: for every cause and status `s`, `Wrap(cause, s).Error()` is
"<s> <status text for s>: <cause text>"; in particular for `s = 400` it is
"400 Bad Request: " followed by the cause's text. -/
theorem C9_wrap_error_text (cause : GoErr) (s : Int) :
    errorText (Wrap cause s) = itoa s ++ " " ++ statusText s ++ ": " ++ errorText cause ∧
    errorText (Wrap cause 400) = "400 Bad Request: " ++ errorText cause :=
  ⟨rfl, rfl⟩

/-- C10: a non-nil error whose wrap chain offers no status-code capability but
whose first `Temporary() bool` capability returns true is mapped to 503
(Service Unavailable) instead of the 500 default. -/
theorem C10_temporary_503 (e : GoErr)
    (h1 : errorsAsHttpError e = none) (h2 : errorsAsTemporary e = some true) :
    StatusCode (some e) = 503 := by
  simp [StatusCode, h1, h2]

theorem C10_temporary_503_witness :
    StatusCode (some (.temporaryError "connection timed out" true)) = 503 :=
  C10_temporary_503 (.temporaryError "connection timed out" true) rfl rfl

end Httperror
